import Mathlib

/-!
Verification of the `chisel` remux bridge
(`src/libchisel/rust_bridge/src/lib.rs`).

The repository consists of one C-ABI function, `chisel_optimize_vorbis`,
which takes two C string pointers (input path, output path), validates
them, opens the input file, creates the output file, delegates to the
`optivorbis` remuxing engine with its default configuration, and returns
an integer status code.

The shallow embedding below models:
* a C string pointer as `Option Path` (`none` = null pointer), where a
  `Path` is the list of bytes of the NUL-terminated string (without the
  terminator);
* `CStr::to_str` as UTF-8 validation of the byte list (`validUtf8`,
  implementing the UTF-8 well-formedness check performed by Rust's
  `str::from_utf8`);
* the filesystem as a partial map from paths to byte contents (`FS`);
* the outcomes of `File::open`, `File::create` and
  `OggToOgg::new_with_defaults().remux` as oracles in an environment
  `Env` (`remuxOk`/`remuxOut` model the default-configuration engine:
  given the bytes read from the input handle, whether it succeeds and
  which bytes it writes to the output handle, including partial output
  on failure);
* the execution as a return code plus a trace of filesystem and handle
  events (`Event`), following Rust's scope-based drop semantics: a
  handle acquired by a successful `File::open`/`File::create` is
  released when the function returns, in reverse declaration order.
  `File::create` truncates the target to zero length on success.
  Folding the event semantics over a trace (`runTrace`) yields the
  filesystem state after the call.
-/

namespace Chisel

/-- Byte of a C string path: a natural number (only values < 256 occur in
practice, but nothing below depends on the bound). -/
abbrev Byte := Nat

/-- Path as the raw bytes of a NUL-terminated C string, without the
terminator. -/
abbrev Path := List Byte

/-- Continuation byte test for UTF-8: `0x80 ≤ b ≤ 0xBF`. -/
def contByte (b : Byte) : Bool := 0x80 ≤ b && b ≤ 0xBF

/-- UTF-8 validity of a byte sequence, as checked by Rust's
`str::from_utf8` (hence by `CStr::to_str`): ASCII bytes stand alone;
2-byte sequences start `0xC2..0xDF`; 3-byte sequences start
`0xE0..0xEF` with the surrogate range `U+D800..U+DFFF` and overlong
encodings excluded; 4-byte sequences start `0xF0..0xF4` with overlong
encodings and code points above `U+10FFFF` excluded. -/
def validUtf8 : List Byte → Bool
  | [] => true
  | b :: rest =>
    if b ≤ 0x7F then validUtf8 rest
    else if 0xC2 ≤ b && b ≤ 0xDF then
      match rest with
      | c :: rest2 => contByte c && validUtf8 rest2
      | [] => false
    else if b == 0xE0 then
      match rest with
      | c :: d :: rest3 =>
          (0xA0 ≤ c && c ≤ 0xBF) && contByte d && validUtf8 rest3
      | _ => false
    else if (0xE1 ≤ b && b ≤ 0xEC) || b == 0xEE || b == 0xEF then
      match rest with
      | c :: d :: rest3 => contByte c && contByte d && validUtf8 rest3
      | _ => false
    else if b == 0xED then
      match rest with
      | c :: d :: rest3 =>
          (0x80 ≤ c && c ≤ 0x9F) && contByte d && validUtf8 rest3
      | _ => false
    else if b == 0xF0 then
      match rest with
      | c :: d :: e :: rest4 =>
          (0x90 ≤ c && c ≤ 0xBF) && contByte d && contByte e &&
            validUtf8 rest4
      | _ => false
    else if 0xF1 ≤ b && b ≤ 0xF3 then
      match rest with
      | c :: d :: e :: rest4 =>
          contByte c && contByte d && contByte e && validUtf8 rest4
      | _ => false
    else if b == 0xF4 then
      match rest with
      | c :: d :: e :: rest4 =>
          (0x80 ≤ c && c ≤ 0x8F) && contByte d && contByte e &&
            validUtf8 rest4
      | _ => false
    else false

/-- Filesystem state: a path maps to `some` byte contents when a file
exists there, `none` otherwise. -/
def FS := Path → Option (List Byte)

/-- Point update of a filesystem state. -/
def fsUpdate (fs : FS) (p : Path) (v : Option (List Byte)) : FS :=
  fun q => if q = p then v else fs q

/-- Environment of oracles for the external collaborators of the bridge:
whether `File::open` succeeds on a path, whether `File::create` succeeds
on a path, and the behaviour of the default-configuration remuxing
engine (`OggToOgg::new_with_defaults().remux`) as a function of the
bytes it reads from the input handle: `remuxOk` tells whether it
succeeds, `remuxOut` gives the bytes it has written to the output handle
when it returns (possibly partial output on failure). -/
structure Env where
  openOk : Path → Bool
  createOk : Path → Bool
  remuxOk : List Byte → Bool
  remuxOut : List Byte → List Byte

/-- Observable events of one bridge call: acquisition of the input
handle (successful `File::open`), acquisition of the output handle
(successful `File::create`, which truncates the file), the remux step,
and the release (close) of each handle when it is dropped. -/
inductive Event where
  | acquireInput (p : Path)
  | acquireOutput (p : Path)
  | remuxStep (inp out : Path) (ok : Bool)
  | releaseOutput (p : Path)
  | releaseInput (p : Path)
deriving DecidableEq, Repr

/-- Filesystem effect of one event. Acquiring the output handle
truncates the output file to zero length; the remux step overwrites the
output file with the engine's output for the bytes currently readable at
the input path; opening and releasing handles do not change contents. -/
def applyEvent (env : Env) (fs : FS) : Event → FS
  | .acquireInput _ => fs
  | .acquireOutput p => fsUpdate fs p (some [])
  | .remuxStep inp out _ =>
      fsUpdate fs out (some (env.remuxOut ((fs inp).getD [])))
  | .releaseOutput _ => fs
  | .releaseInput _ => fs

/-- Filesystem state after a trace of events. -/
def runTrace (env : Env) : FS → List Event → FS
  | fs, [] => fs
  | fs, e :: es => runTrace env (applyEvent env fs e) es

/-- Result of one call of the bridge: the returned status code and the
trace of events the call performed. -/
structure CallResult where
  ret : Int
  trace : List Event
deriving Repr

/-- Shallow embedding of `chisel_optimize_vorbis` from
`src/libchisel/rust_bridge/src/lib.rs`. A null pointer argument returns
`-1` at once; a path failing UTF-8 validation (`CStr::to_str`) returns
`-2`; a failing `File::open` on the input returns `-3`; a failing
`File::create` on the output returns `-4` (dropping the already-open
input handle); otherwise the default-configuration remuxer runs on the
two handles and the call returns `0` on success and `-5` on failure,
dropping both handles in reverse declaration order. The bytes the
engine reads through the input handle are the contents at the input
path after the output file has been truncated by `File::create`. -/
def chisel_optimize_vorbis (env : Env) (fs : FS)
    (input_path output_path : Option Path) : CallResult :=
  match input_path, output_path with
  | none, _ => ⟨-1, []⟩
  | some _, none => ⟨-1, []⟩
  | some ib, some ob =>
    if ¬ validUtf8 ib then ⟨-2, []⟩
    else if ¬ validUtf8 ob then ⟨-2, []⟩
    else if ¬ env.openOk ib then ⟨-3, []⟩
    else if ¬ env.createOk ob then
      ⟨-4, [.acquireInput ib, .releaseInput ib]⟩
    else
      let bytes := ((fsUpdate fs ob (some [])) ib).getD []
      if env.remuxOk bytes then
        ⟨0, [.acquireInput ib, .acquireOutput ob,
             .remuxStep ib ob true, .releaseOutput ob, .releaseInput ib]⟩
      else
        ⟨-5, [.acquireInput ib, .acquireOutput ob,
              .remuxStep ib ob false, .releaseOutput ob, .releaseInput ib]⟩

/-- Status code according to the specification's fixed checking order:
null pointer, then text-decoding validation, then input open, then
output create, then remux; the earliest failing condition determines
the code, and `0` is returned when none fails. This definition follows
the spec's words and is compared with the embedded code in the ordering
claim. -/
def firstFailureCode (env : Env) (fs : FS)
    (input_path output_path : Option Path) : Int :=
  match input_path, output_path with
  | none, _ => -1
  | some _, none => -1
  | some ib, some ob =>
    if ¬ validUtf8 ib ∨ ¬ validUtf8 ob then -2
    else if ¬ env.openOk ib then -3
    else if ¬ env.createOk ob then -4
    else if ¬ env.remuxOk (((fsUpdate fs ob (some [])) ib).getD []) then -5
    else 0

/-- Change of the number of open input handles caused by one event. -/
def inDelta : Event → Int
  | .acquireInput _ => 1
  | .releaseInput _ => -1
  | _ => 0

/-- Change of the number of open output handles caused by one event. -/
def outDelta : Event → Int
  | .acquireOutput _ => 1
  | .releaseOutput _ => -1
  | _ => 0

/-- Handle discipline checker: starting from `i` open input handles and
`o` open output handles, every event of the trace keeps both counts
between `0` and `1`, and both counts are `0` when the trace ends (all
acquired handles released). -/
def handlesOk (i o : Int) : List Event → Bool
  | [] => i == 0 && o == 0
  | e :: es =>
      let i2 := i + inDelta e
      let o2 := o + outDelta e
      0 ≤ i2 && i2 ≤ 1 && 0 ≤ o2 && o2 ≤ 1 && handlesOk i2 o2 es

/-- Empty filesystem, used for concrete evaluations. -/
def fs0 : FS := fun _ => none

/-- Environment in which every external step succeeds and the engine
writes nothing. -/
def envAllOk : Env :=
  ⟨fun _ => true, fun _ => true, fun _ => true, fun _ => []⟩

/-- Environment in which `File::open` always fails. -/
def envOpenFail : Env :=
  ⟨fun _ => false, fun _ => true, fun _ => true, fun _ => []⟩

/-- Environment in which `File::create` always fails. -/
def envCreateFail : Env :=
  ⟨fun _ => true, fun _ => false, fun _ => true, fun _ => []⟩

/-- Environment in which the remuxing engine always fails, after
writing one byte of partial output. -/
def envRemuxFail : Env :=
  ⟨fun _ => true, fun _ => true, fun _ => false, fun _ => [79]⟩

/-- C2: the five failure conditions are checked in the fixed order
null pointer, text-decoding validation, input open, output create,
remux, in a single linear sequence with early exit: the status code
returned by the embedded `chisel_optimize_vorbis` always equals the
code of the earliest failing condition in that order
(`firstFailureCode`). In particular a null input pointer together with
an undecodable output path returns `-1`, not `-2`. -/
theorem chisel_checks_in_spec_order (env : Env) (fs : FS)
    (ip op : Option Path) :
    (chisel_optimize_vorbis env fs ip op).ret =
      firstFailureCode env fs ip op := by
  match ip, op with
  | none, _ => rfl
  | some _, none => rfl
  | some ib, some ob =>
    by_cases h1 : validUtf8 ib <;> by_cases h2 : validUtf8 ob <;>
      simp [chisel_optimize_vorbis, firstFailureCode, h1, h2] <;>
      split_ifs <;> simp_all

/-- Filesystem with one file, at path `[97]` (the byte of "a"), holding
two bytes; used for concrete evaluations. -/
def fsOne : FS := fun q => if q = [97] then some [10, 20] else none

/-- Reading a filesystem at the path just updated yields the new
value. -/
theorem fsUpdate_same (fs : FS) (p : Path) (v : Option (List Byte)) :
    fsUpdate fs p v p = v := by
  simp [fsUpdate]

/-- C1: when both path pointers are non-null, both paths decode as
valid UTF-8, the input file opens, the output file is created, and the
default-configuration remuxing engine succeeds on the bytes it reads
through the input handle, the call returns `0` and the output path
afterwards contains exactly the engine's remuxed output for those input
bytes. -/
theorem chisel_success_remuxes (env : Env) (fs : FS) (ib ob : Path)
    (hvi : validUtf8 ib = true) (hvo : validUtf8 ob = true)
    (ho : env.openOk ib = true) (hc : env.createOk ob = true)
    (hr : env.remuxOk (((fsUpdate fs ob (some [])) ib).getD []) = true) :
    (chisel_optimize_vorbis env fs (some ib) (some ob)).ret = 0 ∧
    runTrace env fs
        (chisel_optimize_vorbis env fs (some ib) (some ob)).trace ob =
      some (env.remuxOut (((fsUpdate fs ob (some [])) ib).getD [])) := by
  simp [chisel_optimize_vorbis, hvi, hvo, ho, hc, hr, runTrace,
    applyEvent, fsUpdate_same]

/-- Witness for C1 at a concrete input: input path "a", output path
"b", empty filesystem, all oracles succeeding. -/
theorem chisel_success_remuxes_witness :
    (chisel_optimize_vorbis envAllOk fs0 (some [97]) (some [98])).ret
        = 0 ∧
    runTrace envAllOk fs0
        (chisel_optimize_vorbis envAllOk fs0
          (some [97]) (some [98])).trace [98] =
      some (envAllOk.remuxOut
        (((fsUpdate fs0 [98] (some [])) [97]).getD [])) :=
  chisel_success_remuxes envAllOk fs0 [97] [98]
    (by decide) (by decide) rfl rfl rfl

/-- C3: a null input or output pointer makes the call return `-1` with
an empty event trace, so no file is opened or created and the
filesystem is unchanged. -/
theorem chisel_null_pointer (env : Env) (fs : FS)
    (ip op : Option Path) (h : ip = none ∨ op = none) :
    (chisel_optimize_vorbis env fs ip op).ret = -1 ∧
    (chisel_optimize_vorbis env fs ip op).trace = [] ∧
    runTrace env fs (chisel_optimize_vorbis env fs ip op).trace = fs := by
  rcases h with h | h
  · subst h; exact ⟨rfl, rfl, rfl⟩
  · subst h; cases ip <;> exact ⟨rfl, rfl, rfl⟩

/-- Witness for C3 at a concrete input: null input pointer together
with a valid output path. -/
theorem chisel_null_pointer_witness :
    (chisel_optimize_vorbis envAllOk fs0 none (some [97])).ret = -1 ∧
    (chisel_optimize_vorbis envAllOk fs0 none (some [97])).trace = [] ∧
    runTrace envAllOk fs0
        (chisel_optimize_vorbis envAllOk fs0 none (some [97])).trace
      = fs0 :=
  chisel_null_pointer envAllOk fs0 none (some [97]) (Or.inl rfl)

/-- C4: when both pointers are non-null and either path's bytes fail
UTF-8 validation, the call returns `-2`. -/
theorem chisel_invalid_encoding (env : Env) (fs : FS) (ib ob : Path)
    (h : validUtf8 ib = false ∨ validUtf8 ob = false) :
    (chisel_optimize_vorbis env fs (some ib) (some ob)).ret = -2 := by
  rcases h with h | h
  · simp [chisel_optimize_vorbis, h]
  · by_cases h1 : validUtf8 ib <;>
      simp [chisel_optimize_vorbis, h, h1]

/-- Witness for C4 at a concrete input: the single byte `0xFF` is not
valid UTF-8. -/
theorem chisel_invalid_encoding_witness :
    (chisel_optimize_vorbis envAllOk fs0
      (some [255]) (some [97])).ret = -2 :=
  chisel_invalid_encoding envAllOk fs0 [255] [97] (Or.inl (by decide))

/-- C5: when both pointers are non-null, both paths decode, and the
input file cannot be opened, the call returns `-3` with an empty event
trace, so the output path is left untouched: no file is created and a
preexisting file at the output path keeps its contents. -/
theorem chisel_input_open_failure (env : Env) (fs : FS) (ib ob : Path)
    (hvi : validUtf8 ib = true) (hvo : validUtf8 ob = true)
    (ho : env.openOk ib = false) :
    (chisel_optimize_vorbis env fs (some ib) (some ob)).ret = -3 ∧
    (chisel_optimize_vorbis env fs (some ib) (some ob)).trace = [] ∧
    runTrace env fs
        (chisel_optimize_vorbis env fs (some ib) (some ob)).trace
      = fs := by
  simp [chisel_optimize_vorbis, hvi, hvo, ho, runTrace]

/-- Witness for C5 at a concrete input: an environment where
`File::open` fails, and a filesystem with a preexisting file at the
output path "a". -/
theorem chisel_input_open_failure_witness :
    (chisel_optimize_vorbis envOpenFail fsOne
        (some [98]) (some [97])).ret = -3 ∧
    (chisel_optimize_vorbis envOpenFail fsOne
        (some [98]) (some [97])).trace = [] ∧
    runTrace envOpenFail fsOne
        (chisel_optimize_vorbis envOpenFail fsOne
          (some [98]) (some [97])).trace
      = fsOne :=
  chisel_input_open_failure envOpenFail fsOne [98] [97]
    (by decide) (by decide) rfl

/-- C6: when both pointers are non-null, both paths decode, the input
file opens, but the output file cannot be created, the call returns
`-4`; the input handle acquired on the way is released again and the
filesystem is unchanged. -/
theorem chisel_output_create_failure (env : Env) (fs : FS)
    (ib ob : Path)
    (hvi : validUtf8 ib = true) (hvo : validUtf8 ob = true)
    (ho : env.openOk ib = true) (hc : env.createOk ob = false) :
    (chisel_optimize_vorbis env fs (some ib) (some ob)).ret = -4 ∧
    (chisel_optimize_vorbis env fs (some ib) (some ob)).trace =
      [Event.acquireInput ib, Event.releaseInput ib] ∧
    runTrace env fs
        (chisel_optimize_vorbis env fs (some ib) (some ob)).trace
      = fs := by
  simp [chisel_optimize_vorbis, hvi, hvo, ho, hc, runTrace, applyEvent]

/-- Witness for C6 at a concrete input: an environment where
`File::create` fails. -/
theorem chisel_output_create_failure_witness :
    (chisel_optimize_vorbis envCreateFail fs0
        (some [97]) (some [98])).ret = -4 ∧
    (chisel_optimize_vorbis envCreateFail fs0
        (some [97]) (some [98])).trace =
      [Event.acquireInput [97], Event.releaseInput [97]] ∧
    runTrace envCreateFail fs0
        (chisel_optimize_vorbis envCreateFail fs0
          (some [97]) (some [98])).trace
      = fs0 :=
  chisel_output_create_failure envCreateFail fs0 [97] [98]
    (by decide) (by decide) rfl rfl

/-- C7: when the call reaches the remux step and the engine fails, the
call returns `-5`; the output file has already been created/truncated
(the trace acquires the output handle before the remux step) and is
left holding exactly the bytes the engine wrote before failing,
possibly empty or partial - the bridge adds no atomicity. -/
theorem chisel_remux_failure (env : Env) (fs : FS) (ib ob : Path)
    (hvi : validUtf8 ib = true) (hvo : validUtf8 ob = true)
    (ho : env.openOk ib = true) (hc : env.createOk ob = true)
    (hr : env.remuxOk (((fsUpdate fs ob (some [])) ib).getD [])
      = false) :
    (chisel_optimize_vorbis env fs (some ib) (some ob)).ret = -5 ∧
    (chisel_optimize_vorbis env fs (some ib) (some ob)).trace =
      [Event.acquireInput ib, Event.acquireOutput ob,
       Event.remuxStep ib ob false, Event.releaseOutput ob,
       Event.releaseInput ib] ∧
    runTrace env fs
        (chisel_optimize_vorbis env fs (some ib) (some ob)).trace ob =
      some (env.remuxOut (((fsUpdate fs ob (some [])) ib).getD []))
    := by
  simp [chisel_optimize_vorbis, hvi, hvo, ho, hc, hr, runTrace,
    applyEvent, fsUpdate_same]

/-- Witness for C7 at a concrete input: an environment whose engine
always fails after writing one byte of partial output. -/
theorem chisel_remux_failure_witness :
    (chisel_optimize_vorbis envRemuxFail fs0
        (some [97]) (some [98])).ret = -5 ∧
    (chisel_optimize_vorbis envRemuxFail fs0
        (some [97]) (some [98])).trace =
      [Event.acquireInput [97], Event.acquireOutput [98],
       Event.remuxStep [97] [98] false, Event.releaseOutput [98],
       Event.releaseInput [97]] ∧
    runTrace envRemuxFail fs0
        (chisel_optimize_vorbis envRemuxFail fs0
          (some [97]) (some [98])).trace [98] =
      some (envRemuxFail.remuxOut
        (((fsUpdate fs0 [98] (some [])) [97]).getD [])) :=
  chisel_remux_failure envRemuxFail fs0 [97] [98]
    (by decide) (by decide) rfl rfl rfl

/-- C8: on every call and every exit path, the event trace keeps at
most one input handle and at most one output handle open at any time,
and every acquired handle is released before the call returns. -/
theorem chisel_handle_discipline (env : Env) (fs : FS)
    (ip op : Option Path) :
    handlesOk 0 0 (chisel_optimize_vorbis env fs ip op).trace
      = true := by
  match ip, op with
  | none, _ => rfl
  | some ib, none => rfl
  | some ib, some ob =>
    simp only [chisel_optimize_vorbis]
    split_ifs <;> rfl

/-- C9: whenever the call returns `-2`, the event trace is empty: both
paths are validated before any filesystem access, so no file is opened
or created and the filesystem is unchanged. -/
theorem chisel_invalid_encoding_no_io (env : Env) (fs : FS)
    (ip op : Option Path)
    (h : (chisel_optimize_vorbis env fs ip op).ret = -2) :
    (chisel_optimize_vorbis env fs ip op).trace = [] ∧
    runTrace env fs (chisel_optimize_vorbis env fs ip op).trace
      = fs := by
  match ip, op with
  | none, _ => simp [chisel_optimize_vorbis] at h
  | some ib, none => simp [chisel_optimize_vorbis] at h
  | some ib, some ob =>
    by_cases h1 : validUtf8 ib
    · by_cases h2 : validUtf8 ob
      · exfalso
        simp [chisel_optimize_vorbis, h1, h2] at h
        split_ifs at h <;> simp_all
      · exact ⟨by simp [chisel_optimize_vorbis, h1, h2],
          by simp [chisel_optimize_vorbis, h1, h2, runTrace]⟩
    · exact ⟨by simp [chisel_optimize_vorbis, h1],
        by simp [chisel_optimize_vorbis, h1, runTrace]⟩

/-- Witness for C9 at a concrete input: output path bytes `[255]` fail
UTF-8 validation, so the call returns `-2` and the trace is empty. -/
theorem chisel_invalid_encoding_no_io_witness :
    (chisel_optimize_vorbis envAllOk fsOne
        (some [97]) (some [255])).trace = [] ∧
    runTrace envAllOk fsOne
        (chisel_optimize_vorbis envAllOk fsOne
          (some [97]) (some [255])).trace
      = fsOne :=
  chisel_invalid_encoding_no_io envAllOk fsOne
    (some [97]) (some [255]) (by decide)

/-- C10: when the input path and the output path are the same bytes and
name an existing readable file, the `File::create` step truncates that
file to zero length after the input handle was opened and before the
remux step runs; the call returns `0` or `-5`, and the final contents
at the path are the engine's output for an empty input stream,
independent of the original contents `c` - the original input content
is destroyed. -/
theorem chisel_aliased_truncates (env : Env) (fs : FS) (p : Path)
    (c : List Byte)
    (hv : validUtf8 p = true) (_hfs : fs p = some c)
    (ho : env.openOk p = true) (hc : env.createOk p = true) :
    ((chisel_optimize_vorbis env fs (some p) (some p)).ret = 0 ∨
     (chisel_optimize_vorbis env fs (some p) (some p)).ret = -5) ∧
    List.take 2 (chisel_optimize_vorbis env fs (some p) (some p)).trace
      = [Event.acquireInput p, Event.acquireOutput p] ∧
    runTrace env fs
        (List.take 2
          (chisel_optimize_vorbis env fs (some p) (some p)).trace) p
      = some [] ∧
    runTrace env fs
        (chisel_optimize_vorbis env fs (some p) (some p)).trace p =
      some (env.remuxOut []) := by
  by_cases hr : env.remuxOk [] <;>
    simp [chisel_optimize_vorbis, hv, ho, hc, hr, runTrace,
      applyEvent, fsUpdate]

/-- Witness for C10 at a concrete input: path "a" holding two bytes in
`fsOne`, all oracles succeeding. -/
theorem chisel_aliased_truncates_witness :
    ((chisel_optimize_vorbis envAllOk fsOne
        (some [97]) (some [97])).ret = 0 ∨
     (chisel_optimize_vorbis envAllOk fsOne
        (some [97]) (some [97])).ret = -5) ∧
    List.take 2 (chisel_optimize_vorbis envAllOk fsOne
        (some [97]) (some [97])).trace
      = [Event.acquireInput [97], Event.acquireOutput [97]] ∧
    runTrace envAllOk fsOne
        (List.take 2 (chisel_optimize_vorbis envAllOk fsOne
          (some [97]) (some [97])).trace) [97]
      = some [] ∧
    runTrace envAllOk fsOne
        (chisel_optimize_vorbis envAllOk fsOne
          (some [97]) (some [97])).trace [97] =
      some (envAllOk.remuxOut []) :=
  chisel_aliased_truncates envAllOk fsOne [97] [10, 20]
    (by decide) (by decide) rfl rfl

end Chisel
